import Mathlib

/-!
Verification of `tubedownloader.py`, an interactive YouTube-to-MP3 console
utility.  The program is a configuration-and-orchestration shim around two
external collaborators (the `yt_dlp` fetch/convert library and the `ffmpeg`
binary) plus the filesystem and the console.  We embed it shallowly:

* console input becomes an explicit list of input lines, console output an
  explicit list of printed lines;
* the fetch service becomes an environment of two functions (`extract_info`
  and `download`) that either succeed or fail with an error message, mirroring
  the Python `try`/`except` around the `yt_dlp` calls;
* the filesystem becomes an environment of boolean predicates over resolved
  paths, with `mkdir` as an explicit state update;
* a resolved path (the result of Python's `Path(...).resolve()`, an absolute
  normalized path) is represented as its list of segments from the root.

Every definition is translated directly from the source file; the only
external semantics modelled from the spec are noted in doc comments.
-/

/-- Python `str.strip` whitespace class (ASCII part). -/
def isSpace (c : Char) : Bool :=
  c == ' ' || c == '\t' || c == '\n' || c == '\r' || c == '\x0b' || c == '\x0c'

/-- Python `str.strip()`: drop leading and trailing whitespace. -/
def strip (s : String) : String :=
  String.mk (((s.data.dropWhile isSpace).reverse.dropWhile isSpace).reverse)

/-- ASCII lower-casing of one character, as Python `str.lower()` acts on the
ASCII range (the only range relevant to the checked substrings). -/
def lowerChar (c : Char) : Char :=
  if 'A' ≤ c ∧ c ≤ 'Z' then Char.ofNat (c.toNat + 32) else c

/-- Python `str.lower()`. -/
def lowerStr (s : String) : String :=
  String.mk (s.data.map lowerChar)

/-- Substring test on character lists: does `pat` occur contiguously? -/
def subList (pat : List Char) : List Char → Bool
  | [] => pat.isEmpty
  | c :: cs => pat.isPrefixOf (c :: cs) || subList pat cs

/-- Python's `pat in s` substring containment. -/
def containsSub (s pat : String) : Bool :=
  subList pat.data s.data

/-- The URL validation of `main` (line 123):
`any(domain in url.lower() for domain in ['youtube.com', 'youtu.be'])`. -/
def isValidUrl (url : String) : Bool :=
  containsSub (lowerStr url) "youtube.com" || containsSub (lowerStr url) "youtu.be"

/-- Python `f"{n:02d}"`: decimal with at least two digits. -/
def pad2 (n : Nat) : String :=
  if n < 10 then "0" ++ toString n else toString n

/-- The `MM:SS` rendering of a duration via `divmod(duration, 60)`
(lines 83-84). -/
def formatDuration (d : Nat) : String :=
  pad2 (d / 60) ++ ":" ++ pad2 (d % 60)

/-- A resolved absolute normalized path, represented as its segment list from
the filesystem root.  Modelled from the spec: `Path(p).resolve()` of the
external `pathlib` library yields an absolute normalized path, which this
representation encodes by construction. -/
abbrev PathV := List String

/-- Render a resolved path back to its string form (`str(download_path)`). -/
def renderPath (p : PathV) : String :=
  "/" ++ String.intercalate "/" p

/-- `os.path.join(a, b)` for the POSIX flavour used by the source. -/
def joinPath (a b : String) : String :=
  if "/".data.isPrefixOf b.data then b
  else if a = "" then b
  else if "/".data.isSuffixOf a.data then a ++ b
  else a ++ "/" ++ b

/-- One entry of the `postprocessors` list of the yt-dlp options. -/
structure PostProcessor where
  key : String
  preferredcodec : String
  preferredquality : String
deriving DecidableEq, Repr

/-- The yt-dlp option dictionary built by `download_audio` (lines 59-72). -/
structure YdlOpts where
  format : String
  outtmpl : String
  postprocessors : List PostProcessor
  postprocessor_args : List String
  prefer_ffmpeg : Bool
  keepvideo : Bool
deriving DecidableEq, Repr

/-- The options constructed in `download_audio` for a given download path. -/
def ydl_opts (download_path : String) : YdlOpts :=
  { format := "bestaudio/best"
    outtmpl := joinPath download_path "%(title)s.%(ext)s"
    postprocessors := [{ key := "FFmpegExtractAudio"
                         preferredcodec := "mp3"
                         preferredquality := "192" }]
    postprocessor_args := ["-ar", "44100"]
    prefer_ffmpeg := true
    keepvideo := false }

/-- The external fetch/convert service (`yt_dlp.YoutubeDL`): metadata
retrieval returns a title and a duration in seconds, and both calls either
succeed or raise, surfaced here as `Except` with the exception text. -/
structure FetchEnv where
  extract_info : YdlOpts → String → Except String (String × Nat)
  download : YdlOpts → String → Except String Unit

/-- The per-item error diagnostic of line 92:
`f"✗ Error downloading {url}: {str(e)}"`. -/
def errLine (url msg : String) : String :=
  "✗ Error downloading " ++ url ++ ": " ++ msg

/-- Recognizer for the error diagnostic: it is the only output line whose
first character is the cross mark. -/
def isErrLine (l : String) : Bool :=
  l.data.head? == some '✗'

/-- `download_audio(url, download_path)` (lines 55-92), returning the list of
printed lines.  The `try` block covers metadata retrieval and the download
call; any exception is caught and reported, so the function is total. -/
def download_audio (env : FetchEnv) (url download_path : String) : List String :=
  match env.extract_info (ydl_opts download_path) url with
  | .error e => [errLine url e]
  | .ok (title, duration) =>
    ("Title: " ++ title)
      :: (if duration ≠ 0 then ["Duration: " ++ formatDuration duration] else [])
      ++ ["Downloading and converting to MP3..."]
      ++ (match env.download (ydl_opts download_path) url with
          | .error e => [errLine url e]
          | .ok _ => ["✓ Successfully downloaded: " ++ title])

/-- The `"-" * 50` separator printed after each processed URL (line 130). -/
def sepLine : String :=
  String.mk (List.replicate 50 '-')

/-- The URL prompt of line 116. -/
def urlPrompt : String :=
  "Enter YouTube URL (or press Enter to exit): "

/-- Outcome of one iteration of the main loop: the session either ends
(empty input) or continues with an updated counter and some output. -/
inductive StepResult where
  | ended
  | looped (count : Nat) (out : List String)
deriving Repr

/-- One iteration of the `while True` loop of `main` (lines 115-130), given
the raw line read at the URL prompt. -/
def mainStep (env : FetchEnv) (dp : String) (count : Nat) (raw : String) : StepResult :=
  if strip raw = "" then .ended
  else if isValidUrl (strip raw) then
    .looped (count + 1)
      (("\nProcessing: " ++ strip raw) :: download_audio env (strip raw) dp ++ [sepLine])
  else .looped count ["Please enter a valid YouTube URL."]

/-- The two closing lines of `main` (lines 132-133). -/
def summaryLines (count : Nat) : List String :=
  ["\nDownload session completed. Total files downloaded: " ++ toString count,
   "Thank you for using YouTube to MP3 Downloader!"]

/-- The main download loop over a list of console input lines.  `none` means
the input list was exhausted before an empty line ended the session (the
Python program would still be blocked reading); `some (c, out)` means the
session ended with final counter `c` and printed lines `out`. -/
def mainLoop (env : FetchEnv) (dp : String) : Nat → List String → Option (Nat × List String)
  | _, [] => none
  | count, raw :: rest =>
    match mainStep env dp count raw with
    | .ended => some (count, urlPrompt :: summaryLines count)
    | .looped c out =>
      (mainLoop env dp c rest).map (fun r => (r.1, (urlPrompt :: out) ++ r.2))

/-- The filesystem environment seen through resolved paths: existence,
directory-ness, writability, and whether a `mkdir` call on a path raises
(`some` exception text) or succeeds (`none`). -/
structure FS where
  pathExists : PathV → Bool
  isDir : PathV → Bool
  writable : PathV → Bool
  mkdirErr : PathV → Option String

/-- Effect of a successful `download_path.mkdir(parents=True, exist_ok=True)`
(line 35).  Modelled from the spec: the external `pathlib` call creates the
directory and all missing intermediate segments, so afterwards every prefix
of the path exists and is a directory. -/
def FS.mkdir (fs : FS) (p : PathV) : FS :=
  { fs with
    pathExists := fun q => q.isPrefixOf p || fs.pathExists q,
    isDir := fun q => q.isPrefixOf p || fs.isDir q }

/-- Result of path acquisition: success carries the validated path, the
final filesystem, the printed lines and the unconsumed input; `pending`
means the input list was exhausted while the loop was still prompting. -/
inductive AcqResult where
  | ok (path : PathV) (fs : FS) (out : List String) (rest : List String)
  | pending (fs : FS) (out : List String)

/-- Prefix some printed lines onto an acquisition result. -/
def AcqResult.prepend (msgs : List String) : AcqResult → AcqResult
  | .ok p fs out rest => .ok p fs (msgs ++ out) rest
  | .pending fs out => .pending fs (msgs ++ out)

/-- The filesystem carried by an acquisition result. -/
def AcqResult.fsOf : AcqResult → FS
  | .ok _ fs _ _ => fs
  | .pending fs _ => fs

/-- The directory / writability checks of lines 44-51, run after the path is
known to exist: `none` means both pass, `some msgs` the diagnostics printed
before re-prompting. -/
def checkDirWritable (fs : FS) (dp : PathV) : Option (List String) :=
  if fs.isDir dp then
    if fs.writable dp then none
    else some ["You don't have write permission to this directory."]
  else some ["The path must be a directory, not a file."]

/-- The path prompt of line 21. -/
def pathPrompt : String :=
  "Enter the absolute path where you want to save MP3 files: "

/-- The directory-creation confirmation prompt of line 32. -/
def createPrompt (dp : PathV) : String :=
  "Path '" ++ renderPath dp ++ "' doesn't exist. Create it? (y/n): "

/-- The confirmation check of line 33: `create in ['y', 'yes']` after
`.strip().lower()`. -/
def confirmYes (c : String) : Bool :=
  lowerStr (strip c) == "y" || lowerStr (strip c) == "yes"

/-- `get_download_path()` (lines 18-53) over the resolution function `re`
(Python's `Path(path).resolve()`), an initial filesystem and the list of
console input lines.  Each loop iteration consumes one line at the path
prompt and, when the path does not exist, one more at the confirmation
prompt. -/
def get_download_path (re : String → PathV) : FS → List String → AcqResult
  | fs, [] => .pending fs []
  | fs, raw :: rest =>
    if strip raw = "" then
      AcqResult.prepend [pathPrompt, "Please enter a valid path."]
        (get_download_path re fs rest)
    else
      if fs.pathExists (re (strip raw)) then
        match checkDirWritable fs (re (strip raw)) with
        | none => .ok (re (strip raw)) fs [pathPrompt] rest
        | some msgs =>
          AcqResult.prepend (pathPrompt :: msgs) (get_download_path re fs rest)
      else
        match rest with
        | [] => .pending fs [pathPrompt, createPrompt (re (strip raw))]
        | c :: rest2 =>
          if confirmYes c then
            match fs.mkdirErr (re (strip raw)) with
            | some e =>
              AcqResult.prepend
                [pathPrompt, createPrompt (re (strip raw)),
                 "Error creating directory: " ++ e]
                (get_download_path re fs rest2)
            | none =>
              match checkDirWritable (fs.mkdir (re (strip raw))) (re (strip raw)) with
              | none =>
                .ok (re (strip raw)) (fs.mkdir (re (strip raw)))
                  [pathPrompt, createPrompt (re (strip raw)),
                   "Created directory: " ++ renderPath (re (strip raw))] rest2
              | some msgs =>
                AcqResult.prepend
                  ([pathPrompt, createPrompt (re (strip raw)),
                    "Created directory: " ++ renderPath (re (strip raw))] ++ msgs)
                  (get_download_path re (fs.mkdir (re (strip raw))) rest2)
          else
            AcqResult.prepend [pathPrompt, createPrompt (re (strip raw))]
              (get_download_path re fs rest2)
termination_by structural _ l => l

/-- The three banner lines of `main` (lines 96-98). -/
def bannerLines : List String :=
  ["=== YouTube to MP3 Downloader ===",
   "This script downloads audio from YouTube videos and converts them to MP3.",
   "Press Enter without a URL to exit.\n"]

/-- The warning printed when the `ffmpeg -version` probe fails (lines
109-110); the session proceeds regardless. -/
def ffmpegWarning : List String :=
  ["Warning: FFmpeg not found. You may need to install FFmpeg for audio conversion.",
   "Download from: https://ffmpeg.org/download.html\n"]

/-- The remediation instructions of the import guard (lines 14-15). -/
def remediationLines : List String :=
  ["Error: yt-dlp is not installed.",
   "Please install it using: pip install yt-dlp"]

/-- The whole program: the module-level import guard (lines 11-16) followed
by `main` (lines 94-133).  The result is `some (exitCode, printedLines)`
when the process terminates, `none` when the input list is exhausted while
the program is still prompting.  The only `sys.exit` call in the source is
the non-zero exit of the import guard; a normally ended session falls off
`main` and exits with code 0. -/
def runProgram (ytDlpAvailable : Bool) (re : String → PathV) (fs : FS)
    (ffmpegOk : Bool) (env : FetchEnv) (inputs : List String) :
    Option (Nat × List String) :=
  if ytDlpAvailable then
    match get_download_path re fs inputs with
    | .pending _ _ => none
    | .ok p _ out rest =>
      match mainLoop env (renderPath p) 0 rest with
      | none => none
      | some (_, out2) =>
        some (0, bannerLines ++ out
                  ++ ["Download path set to: " ++ renderPath p ++ "\n"]
                  ++ (if ffmpegOk then [] else ffmpegWarning)
                  ++ out2)
  else some (1, remediationLines)

/-- A fetch environment whose calls always succeed, reporting a fixed title
and duration. -/
def envOk : FetchEnv :=
  { extract_info := fun _ _ => Except.ok ("Song", 213),
    download := fun _ _ => Except.ok () }

/-- A fetch environment behaving like `envOk` on the options actually built
by `download_audio` (which always have `keepvideo = false`) and failing on
any other options value. -/
def envOk2 : FetchEnv :=
  { extract_info := fun o u => if o.keepvideo then Except.error "other" else envOk.extract_info o u,
    download := fun o u => if o.keepvideo then Except.error "other" else envOk.download o u }

/-- A fetch environment whose metadata retrieval always raises. -/
def envFail : FetchEnv :=
  { extract_info := fun _ _ => Except.error "network down",
    download := fun _ _ => Except.error "network down" }

/-- A fetch environment where metadata retrieval succeeds and the download
step raises. -/
def envDlFail : FetchEnv :=
  { extract_info := fun _ _ => Except.ok ("Song", 213),
    download := fun _ _ => Except.error "ffmpeg missing" }

/-- A fetch environment reporting a zero duration (as the source does for a
missing duration field, `info.get('duration', 0)`). -/
def envDur0 : FetchEnv :=
  { extract_info := fun _ _ => Except.ok ("Live", 0),
    download := fun _ _ => Except.ok () }

/-- A one-segment resolution function used to instantiate theorems. -/
def reSingle : String → PathV := fun s => [s]

/-- A filesystem on which every path exists as a writable directory. -/
def fsAll : FS :=
  { pathExists := fun _ => true, isDir := fun _ => true,
    writable := fun _ => true, mkdirErr := fun _ => none }

/-- An empty filesystem on which creation succeeds anywhere and created
directories are writable. -/
def fsW : FS :=
  { pathExists := fun _ => false, isDir := fun _ => false,
    writable := fun _ => true, mkdirErr := fun _ => none }

/-- An empty filesystem on which every creation attempt raises. -/
def fsRO : FS :=
  { pathExists := fun _ => false, isDir := fun _ => false,
    writable := fun _ => false, mkdirErr := fun _ => some "Permission denied" }

/-! ## Helper lemmas -/

/-- The head character of an appended string is the head of its left part. -/
theorem head_data_append (s t : String) (c : Char) (h : s.data.head? = some c) :
    (s ++ t).data.head? = some c := by
  rw [String.data_append]
  cases hs : s.data with
  | nil => rw [hs] at h; cases h
  | cons a l => rw [hs] at h; simpa using h

/-- A line whose underlying string starts with a character other than the
cross mark is not an error diagnostic. -/
theorem isErrLine_of_head (s t : String) (c : Char) (h : s.data.head? = some c)
    (hc : (c == '✗') = false) : isErrLine (s ++ t) = false := by
  unfold isErrLine
  rw [head_data_append s t c h]
  simpa using hc

/-- The error diagnostic is recognized by `isErrLine`. -/
theorem isErrLine_errLine (url e : String) : isErrLine (errLine url e) = true := by
  unfold errLine isErrLine
  rw [head_data_append _ _ '✗'
    (head_data_append _ _ '✗' (head_data_append _ _ '✗' (by decide)))]
  decide

/-- `mainStep` ends the session exactly on input that strips to empty. -/
theorem mainStep_ended_iff (env : FetchEnv) (dp : String) (count : Nat) (raw : String) :
    mainStep env dp count raw = StepResult.ended ↔ strip raw = "" := by
  unfold mainStep
  split
  · simp_all
  · split <;> simp_all

/-! ## Claim theorems -/

/-- C1: for every URL input accepted into Processing (non-empty after
stripping and recognized as a YouTube URL), one loop iteration dispatches
`download_audio` and returns to the prompt with the counter incremented by
exactly one — for every fetch environment, hence regardless of whether the
dispatch succeeded or raised a caught error. -/
theorem counter_increments_per_accepted_url (env : FetchEnv) (dp : String)
    (count : Nat) (raw : String) (h1 : strip raw ≠ "")
    (h2 : isValidUrl (strip raw) = true) :
    mainStep env dp count raw =
      StepResult.looped (count + 1)
        (("\nProcessing: " ++ strip raw)
          :: download_audio env (strip raw) dp ++ [sepLine]) := by
  unfold mainStep
  rw [if_neg h1, if_pos h2]

theorem counter_increments_per_accepted_url_witness :
    mainStep envFail "/music" 5 "https://youtu.be/x" =
      StepResult.looped 6
        (("\nProcessing: " ++ strip "https://youtu.be/x")
          :: download_audio envFail (strip "https://youtu.be/x") "/music" ++ [sepLine]) :=
  counter_increments_per_accepted_url envFail "/music" 5 "https://youtu.be/x"
    (by decide) (by decide)

/-- C3: a non-empty input lacking both recognized domain substrings is
rejected with the diagnostic line, the counter is unchanged, and the loop
re-prompts; the result is the same for every fetch environment, so the
dispatch is never invoked. -/
theorem invalid_url_rejected (env : FetchEnv) (dp : String) (count : Nat)
    (raw : String) (rest : List String) (h1 : strip raw ≠ "")
    (h2 : isValidUrl (strip raw) = false) :
    mainStep env dp count raw =
      StepResult.looped count ["Please enter a valid YouTube URL."] ∧
    mainLoop env dp count (raw :: rest) =
      (mainLoop env dp count rest).map
        (fun r => (r.1, urlPrompt :: "Please enter a valid YouTube URL." :: r.2)) := by
  have hstep : mainStep env dp count raw =
      StepResult.looped count ["Please enter a valid YouTube URL."] := by
    unfold mainStep
    rw [if_neg h1, if_neg (by simp [h2])]
  exact ⟨hstep, by simp [mainLoop, hstep]⟩

theorem invalid_url_rejected_witness :
    mainStep envOk "/music" 7 "https://example.com/video" =
      StepResult.looped 7 ["Please enter a valid YouTube URL."] ∧
    mainLoop envOk "/music" 7 ["https://example.com/video"] =
      (mainLoop envOk "/music" 7 ([] : List String)).map
        (fun r => (r.1, urlPrompt :: "Please enter a valid YouTube URL." :: r.2)) :=
  invalid_url_rejected envOk "/music" 7 "https://example.com/video" []
    (by decide) (by decide)

/-- C10: a line that strips to empty (in particular an all-whitespace line)
ends the session: the step is `ended` for every environment (so it is not
rejected as an invalid URL and no dispatch runs), and the loop terminates
with the counter unchanged, printing the summary for that count. -/
theorem whitespace_input_ends_session (env : FetchEnv) (dp : String)
    (count : Nat) (raw : String) (rest : List String) (h : strip raw = "") :
    mainStep env dp count raw = StepResult.ended ∧
    mainLoop env dp count (raw :: rest) =
      some (count, urlPrompt :: summaryLines count) := by
  have hstep : mainStep env dp count raw = StepResult.ended :=
    (mainStep_ended_iff env dp count raw).mpr h
  exact ⟨hstep, by simp [mainLoop, hstep]⟩

theorem whitespace_input_ends_session_witness :
    mainStep envOk "/music" 2 "   \t " = StepResult.ended ∧
    mainLoop envOk "/music" 2 ["   \t ", "https://youtu.be/x"] =
      some (2, urlPrompt :: summaryLines 2) :=
  whitespace_input_ends_session envOk "/music" 2 "   \t " ["https://youtu.be/x"]
    (by decide)

/-- C7: when the fetch library is unavailable the program prints exactly the
remediation instructions and exits with status 1 ≠ 0, for every filesystem,
environment and input list — so no prompt is printed and no input consumed:
no session starts. -/
theorem missing_fetch_library_fatal (re : String → PathV) (fs : FS)
    (ffmpegOk : Bool) (env : FetchEnv) (inputs : List String) :
    runProgram false re fs ffmpegOk env inputs = some (1, remediationLines) ∧
    (1 : Nat) ≠ 0 := by
  exact ⟨rfl, by decide⟩

/-- C2: every failure inside the dispatch is caught and reported by exactly
one diagnostic line of the form `"✗ Error downloading {url}: {message}"`:
if metadata retrieval fails the output is exactly that line; if metadata
succeeds and the download step fails the output is the metadata lines
followed by that line; in both cases exactly one printed line is an error
diagnostic, and `download_audio` returns normally (it is a total function,
so no exception propagates). -/
theorem dispatch_errors_caught (env : FetchEnv) (url p : String) :
    (∀ e, env.extract_info (ydl_opts p) url = Except.error e →
      download_audio env url p = [errLine url e] ∧
      (download_audio env url p).countP isErrLine = 1) ∧
    (∀ t d e, env.extract_info (ydl_opts p) url = Except.ok (t, d) →
      env.download (ydl_opts p) url = Except.error e →
      download_audio env url p =
        ("Title: " ++ t)
          :: (if d ≠ 0 then ["Duration: " ++ formatDuration d] else [])
          ++ ["Downloading and converting to MP3...", errLine url e] ∧
      (download_audio env url p).countP isErrLine = 1) := by
  constructor
  · intro e he
    have hd : download_audio env url p = [errLine url e] := by
      unfold download_audio
      rw [he]
    refine ⟨hd, ?_⟩
    rw [hd]
    simp [List.countP_cons, isErrLine_errLine url e]
  · intro t d e he hd
    have hout : download_audio env url p =
        ("Title: " ++ t)
          :: (if d ≠ 0 then ["Duration: " ++ formatDuration d] else [])
          ++ ["Downloading and converting to MP3...", errLine url e] := by
      unfold download_audio
      rw [he, hd]
      simp
    refine ⟨hout, ?_⟩
    rw [hout]
    have ht : isErrLine ("Title: " ++ t) = false :=
      isErrLine_of_head "Title: " t 'T' (by decide) (by decide)
    have hdl : isErrLine "Downloading and converting to MP3..." = false := by decide
    by_cases hd0 : d ≠ 0
    · have hdur : isErrLine ("Duration: " ++ formatDuration d) = false :=
        isErrLine_of_head "Duration: " (formatDuration d) 'D' (by decide) (by decide)
      simp [hd0, List.countP_cons, ht, hdur, hdl, isErrLine_errLine url e]
    · simp [hd0, List.countP_cons, ht, hdl, isErrLine_errLine url e]

theorem dispatch_errors_caught_witness :
    (download_audio envFail "https://youtu.be/x" "/music" =
        [errLine "https://youtu.be/x" "network down"] ∧
      (download_audio envFail "https://youtu.be/x" "/music").countP isErrLine = 1) ∧
    (download_audio envDlFail "https://youtu.be/x" "/music" =
        ("Title: " ++ "Song")
          :: (if (213 : Nat) ≠ 0 then ["Duration: " ++ formatDuration 213] else [])
          ++ ["Downloading and converting to MP3...",
              errLine "https://youtu.be/x" "ffmpeg missing"] ∧
      (download_audio envDlFail "https://youtu.be/x" "/music").countP isErrLine = 1) :=
  ⟨(dispatch_errors_caught envFail "https://youtu.be/x" "/music").1 "network down" rfl,
   (dispatch_errors_caught envDlFail "https://youtu.be/x" "/music").2 "Song" 213
     "ffmpeg missing" rfl rfl⟩

/-- C8 (counterexample): the claim "for every accepted URL whose metadata
retrieval succeeds, the title and the duration formatted as MM:SS are
printed" fails when the reported duration is 0 (the source guards the
duration print with `if duration:`): here metadata retrieval succeeds with
duration 0, yet no printed line mentions a duration. -/
theorem metadata_duration_not_always_printed :
    envDur0.extract_info (ydl_opts "/music") "https://youtu.be/live" =
      Except.ok ("Live", 0) ∧
    (download_audio envDur0 "https://youtu.be/live" "/music").countP
      (fun l => "Duration".data.isPrefixOf l.data) = 0 := by
  constructor
  · rfl
  · decide

/-- C8 (amended): for every accepted URL whose metadata retrieval succeeds,
the title is printed, the duration formatted as MM:SS is printed exactly
when the reported duration is nonzero, and both appear before the
download/convert step's output. -/
theorem metadata_printed_before_download (env : FetchEnv) (url p t : String)
    (d : Nat) (h : env.extract_info (ydl_opts p) url = Except.ok (t, d)) :
    download_audio env url p =
      ("Title: " ++ t)
        :: (if d ≠ 0 then ["Duration: " ++ formatDuration d] else [])
        ++ ["Downloading and converting to MP3..."]
        ++ (match env.download (ydl_opts p) url with
            | Except.error e => [errLine url e]
            | Except.ok _ => ["✓ Successfully downloaded: " ++ t]) := by
  unfold download_audio
  rw [h]

theorem metadata_printed_before_download_witness :
    download_audio envOk "https://youtu.be/x" "/music" =
      ("Title: " ++ "Song")
        :: (if (213 : Nat) ≠ 0 then ["Duration: " ++ formatDuration 213] else [])
        ++ ["Downloading and converting to MP3..."]
        ++ (match envOk.download (ydl_opts "/music") "https://youtu.be/x" with
            | Except.error e => [errLine "https://youtu.be/x" e]
            | Except.ok _ => ["✓ Successfully downloaded: " ++ "Song"]) :=
  metadata_printed_before_download envOk "https://youtu.be/x" "/music" "Song" 213 rfl

/-- C9: the options handed to the fetch service select best audio quality
(`bestaudio/best`), root the title-plus-extension output template at the
validated directory, attach the MP3 extraction post-processor at quality
192 with a forced 44100 Hz sample rate, prefer the external conversion
binary and discard the intermediate file; and `download_audio` consults its
environment only at these options, so every dispatch is configured exactly
this way. -/
theorem dispatch_configuration (p : String) :
    (ydl_opts p).format = "bestaudio/best" ∧
    (ydl_opts p).outtmpl = joinPath p "%(title)s.%(ext)s" ∧
    (ydl_opts p).postprocessors =
      [{ key := "FFmpegExtractAudio", preferredcodec := "mp3",
         preferredquality := "192" }] ∧
    (ydl_opts p).postprocessor_args = ["-ar", "44100"] ∧
    (ydl_opts p).prefer_ffmpeg = true ∧
    (ydl_opts p).keepvideo = false ∧
    (∀ env env' : FetchEnv, ∀ url : String,
      env.extract_info (ydl_opts p) = env'.extract_info (ydl_opts p) →
      env.download (ydl_opts p) = env'.download (ydl_opts p) →
      download_audio env url p = download_audio env' url p) := by
  refine ⟨rfl, rfl, rfl, rfl, rfl, rfl, ?_⟩
  intro env env' url h1 h2
  unfold download_audio
  rw [h1, h2]

theorem dispatch_configuration_witness :
    (ydl_opts "/music").format = "bestaudio/best" ∧
    (ydl_opts "/music").outtmpl = joinPath "/music" "%(title)s.%(ext)s" ∧
    download_audio envOk "https://youtu.be/x" "/music" =
      download_audio envOk2 "https://youtu.be/x" "/music" :=
  ⟨(dispatch_configuration "/music").1,
   (dispatch_configuration "/music").2.1,
   (dispatch_configuration "/music").2.2.2.2.2.2 envOk envOk2 "https://youtu.be/x"
     (by funext u; rfl) (by funext u; rfl)⟩

/-- Unfolding lemma: acquisition on exhausted input. -/
theorem get_nil (re : String → PathV) (fs : FS) :
    get_download_path re fs [] = AcqResult.pending fs [] := rfl

/-- Unfolding lemma: one acquisition iteration. -/
theorem get_cons (re : String → PathV) (fs : FS) (raw : String) (rest : List String) :
    get_download_path re fs (raw :: rest) =
      if strip raw = "" then
        AcqResult.prepend [pathPrompt, "Please enter a valid path."]
          (get_download_path re fs rest)
      else
        if fs.pathExists (re (strip raw)) then
          match checkDirWritable fs (re (strip raw)) with
          | none => AcqResult.ok (re (strip raw)) fs [pathPrompt] rest
          | some msgs =>
            AcqResult.prepend (pathPrompt :: msgs) (get_download_path re fs rest)
        else
          match rest with
          | [] => AcqResult.pending fs [pathPrompt, createPrompt (re (strip raw))]
          | c :: rest2 =>
            if confirmYes c then
              match fs.mkdirErr (re (strip raw)) with
              | some e =>
                AcqResult.prepend
                  [pathPrompt, createPrompt (re (strip raw)),
                   "Error creating directory: " ++ e]
                  (get_download_path re fs rest2)
              | none =>
                match checkDirWritable (fs.mkdir (re (strip raw))) (re (strip raw)) with
                | none =>
                  AcqResult.ok (re (strip raw)) (fs.mkdir (re (strip raw)))
                    [pathPrompt, createPrompt (re (strip raw)),
                     "Created directory: " ++ renderPath (re (strip raw))] rest2
                | some msgs =>
                  AcqResult.prepend
                    ([pathPrompt, createPrompt (re (strip raw)),
                      "Created directory: " ++ renderPath (re (strip raw))] ++ msgs)
                    (get_download_path re (fs.mkdir (re (strip raw))) rest2)
            else
              AcqResult.prepend [pathPrompt, createPrompt (re (strip raw))]
                (get_download_path re fs rest2) := by
  cases rest with
  | nil => rfl
  | cons c rest2 => rfl

/-- Prefixing output lines does not change the carried filesystem. -/
theorem fsOf_prepend (msgs : List String) (r : AcqResult) :
    (AcqResult.prepend msgs r).fsOf = r.fsOf := by
  cases r <;> rfl

/-- Inversion for a successful result of a prefixed acquisition step. -/
theorem prepend_eq_ok {msgs : List String} {r : AcqResult} {p : PathV} {fs : FS}
    {out rest : List String}
    (h : AcqResult.prepend msgs r = AcqResult.ok p fs out rest) :
    ∃ out', r = AcqResult.ok p fs out' rest ∧ out = msgs ++ out' := by
  cases r with
  | ok p' fs' out' rest' =>
    simp only [AcqResult.prepend, AcqResult.ok.injEq] at h
    exact ⟨out', by simp [h.1, h.2.1, h.2.2.2], h.2.2.1.symm⟩
  | pending fs' out' => simp [AcqResult.prepend] at h

/-- If the directory/writability checks pass, the path is a writable
directory. -/
theorem checkDirWritable_none {fs : FS} {dp : PathV}
    (h : checkDirWritable fs dp = none) :
    fs.isDir dp = true ∧ fs.writable dp = true := by
  unfold checkDirWritable at h
  split at h
  · split at h
    · exact ⟨by assumption, by assumption⟩
    · cases h
  · cases h

/-- Path acquisition never deletes: any path existing (as a directory) in
the initial filesystem still exists (as a directory) in the final one. -/
theorem get_fs_mono (re : String → PathV) (fs : FS) (inputs : List String) :
    ∀ q : PathV,
      (fs.pathExists q = true →
        ((get_download_path re fs inputs).fsOf).pathExists q = true) ∧
      (fs.isDir q = true →
        ((get_download_path re fs inputs).fsOf).isDir q = true) := by
  induction fs, inputs using get_download_path.induct re with
  | case1 fs =>
    intro q
    rw [get_nil]
    exact ⟨id, id⟩
  | case2 fs raw rest h ih =>
    intro q
    rw [get_cons, if_pos h, fsOf_prepend]
    exact ih q
  | case3 fs raw rest h hex hchk =>
    intro q
    rw [get_cons, if_neg h, if_pos hex, hchk]
    exact ⟨id, id⟩
  | case4 fs raw rest h hex msgs hchk ih =>
    intro q
    rw [get_cons, if_neg h, if_pos hex, hchk, fsOf_prepend]
    exact ih q
  | case5 fs raw h hex =>
    intro q
    rw [get_cons, if_neg h, if_neg hex]
    exact ⟨id, id⟩
  | case6 fs raw h hex c rest2 hc e hmk ih =>
    intro q
    rw [get_cons, if_neg h, if_neg hex]
    dsimp only
    rw [if_pos hc, hmk, fsOf_prepend]
    exact ih q
  | case7 fs raw h hex c rest2 hc hmk hchk =>
    intro q
    rw [get_cons, if_neg h, if_neg hex]
    dsimp only
    rw [if_pos hc, hmk, hchk]
    constructor
    · intro hq; simp [AcqResult.fsOf, FS.mkdir, hq]
    · intro hq; simp [AcqResult.fsOf, FS.mkdir, hq]
  | case8 fs raw h hex c rest2 hc hmk msgs hchk ih =>
    intro q
    rw [get_cons, if_neg h, if_neg hex]
    dsimp only
    rw [if_pos hc, hmk, hchk, fsOf_prepend]
    constructor
    · intro hq
      exact (ih q).1 (by simp [FS.mkdir, hq])
    · intro hq
      exact (ih q).2 (by simp [FS.mkdir, hq])
  | case9 fs raw h hex c rest2 hc ih =>
    intro q
    rw [get_cons, if_neg h, if_neg hex]
    dsimp only
    rw [if_neg hc, fsOf_prepend]
    exact ih q

/-- Soundness of a successful path acquisition: the returned path exists,
is a directory and is writable on the final filesystem, and it is the
resolution of some non-empty stripped input line. -/
theorem get_ok_sound (re : String → PathV) (fs : FS) (inputs : List String) :
    ∀ (p : PathV) (fs' : FS) (out rest : List String),
      get_download_path re fs inputs = AcqResult.ok p fs' out rest →
      fs'.pathExists p = true ∧ fs'.isDir p = true ∧ fs'.writable p = true ∧
      ∃ raw ∈ inputs, strip raw ≠ "" ∧ p = re (strip raw) := by
  induction fs, inputs using get_download_path.induct re with
  | case1 fs =>
    intro p fs' out rest hh
    rw [get_nil] at hh
    cases hh
  | case2 fs raw rest h ih =>
    intro p fs' out rest' hh
    rw [get_cons, if_pos h] at hh
    obtain ⟨out', hr, -⟩ := prepend_eq_ok hh
    obtain ⟨h1, h2, h3, raw', hmem, h4⟩ := ih p fs' out' rest' hr
    exact ⟨h1, h2, h3, raw', List.mem_cons_of_mem _ hmem, h4⟩
  | case3 fs raw rest h hex hchk =>
    intro p fs' out rest' hh
    rw [get_cons, if_neg h, if_pos hex, hchk] at hh
    obtain ⟨hd, hw⟩ := checkDirWritable_none hchk
    cases hh
    exact ⟨hex, hd, hw, raw, List.mem_cons_self _ _, h, rfl⟩
  | case4 fs raw rest h hex msgs hchk ih =>
    intro p fs' out rest' hh
    rw [get_cons, if_neg h, if_pos hex, hchk] at hh
    obtain ⟨out', hr, -⟩ := prepend_eq_ok hh
    obtain ⟨h1, h2, h3, raw', hmem, h4⟩ := ih p fs' out' rest' hr
    exact ⟨h1, h2, h3, raw', List.mem_cons_of_mem _ hmem, h4⟩
  | case5 fs raw h hex =>
    intro p fs' out rest' hh
    rw [get_cons, if_neg h, if_neg hex] at hh
    cases hh
  | case6 fs raw h hex c rest2 hc e hmk ih =>
    intro p fs' out rest' hh
    rw [get_cons, if_neg h, if_neg hex] at hh
    dsimp only at hh
    rw [if_pos hc, hmk] at hh
    obtain ⟨out', hr, -⟩ := prepend_eq_ok hh
    obtain ⟨h1, h2, h3, raw', hmem, h4⟩ := ih p fs' out' rest' hr
    exact ⟨h1, h2, h3, raw',
      List.mem_cons_of_mem _ (List.mem_cons_of_mem _ hmem), h4⟩
  | case7 fs raw h hex c rest2 hc hmk hchk =>
    intro p fs' out rest' hh
    rw [get_cons, if_neg h, if_neg hex] at hh
    dsimp only at hh
    rw [if_pos hc, hmk, hchk] at hh
    obtain ⟨hd, hw⟩ := checkDirWritable_none hchk
    cases hh
    refine ⟨?_, hd, hw, raw, List.mem_cons_self _ _, h, rfl⟩
    simp [FS.mkdir]
  | case8 fs raw h hex c rest2 hc hmk msgs hchk ih =>
    intro p fs' out rest' hh
    rw [get_cons, if_neg h, if_neg hex] at hh
    dsimp only at hh
    rw [if_pos hc, hmk, hchk] at hh
    obtain ⟨out', hr, -⟩ := prepend_eq_ok hh
    obtain ⟨h1, h2, h3, raw', hmem, h4⟩ := ih p fs' out' rest' hr
    exact ⟨h1, h2, h3, raw',
      List.mem_cons_of_mem _ (List.mem_cons_of_mem _ hmem), h4⟩
  | case9 fs raw h hex c rest2 hc ih =>
    intro p fs' out rest' hh
    rw [get_cons, if_neg h, if_neg hex] at hh
    dsimp only at hh
    rw [if_neg hc] at hh
    obtain ⟨out', hr, -⟩ := prepend_eq_ok hh
    obtain ⟨h1, h2, h3, raw', hmem, h4⟩ := ih p fs' out' rest' hr
    exact ⟨h1, h2, h3, raw',
      List.mem_cons_of_mem _ (List.mem_cons_of_mem _ hmem), h4⟩

/-- C5: path acquisition returns only a validated path: whenever it returns,
the stripped input that produced the path was non-empty, and on the final
filesystem the path (by representation an absolute normalized resolved
path) exists, is a directory, and is writable; and on each validation
failure (empty input, not a directory, not writable) the specific
diagnostic is printed and the loop re-prompts on the remaining input, with
no retry limit. -/
theorem acquisition_validates_path (re : String → PathV) :
    (∀ (fs : FS) (inputs : List String) (p : PathV) (fs' : FS) (out rest : List String),
      get_download_path re fs inputs = AcqResult.ok p fs' out rest →
      fs'.pathExists p = true ∧ fs'.isDir p = true ∧ fs'.writable p = true ∧
      ∃ raw ∈ inputs, strip raw ≠ "" ∧ p = re (strip raw)) ∧
    (∀ (fs : FS) (raw : String) (rest : List String), strip raw = "" →
      get_download_path re fs (raw :: rest) =
        AcqResult.prepend [pathPrompt, "Please enter a valid path."]
          (get_download_path re fs rest)) ∧
    (∀ (fs : FS) (raw : String) (rest : List String), strip raw ≠ "" →
      fs.pathExists (re (strip raw)) = true →
      fs.isDir (re (strip raw)) = false →
      get_download_path re fs (raw :: rest) =
        AcqResult.prepend [pathPrompt, "The path must be a directory, not a file."]
          (get_download_path re fs rest)) ∧
    (∀ (fs : FS) (raw : String) (rest : List String), strip raw ≠ "" →
      fs.pathExists (re (strip raw)) = true →
      fs.isDir (re (strip raw)) = true → fs.writable (re (strip raw)) = false →
      get_download_path re fs (raw :: rest) =
        AcqResult.prepend
          [pathPrompt, "You don't have write permission to this directory."]
          (get_download_path re fs rest)) := by
  refine ⟨fun fs inputs => get_ok_sound re fs inputs, ?_, ?_, ?_⟩
  · intro fs raw rest h
    rw [get_cons, if_pos h]
  · intro fs raw rest h hex hdir
    rw [get_cons, if_neg h, if_pos hex,
      show checkDirWritable fs (re (strip raw)) =
        some ["The path must be a directory, not a file."] by
          unfold checkDirWritable
          rw [if_neg (by simp [hdir])]]
  · intro fs raw rest h hex hdir hwr
    rw [get_cons, if_neg h, if_pos hex,
      show checkDirWritable fs (re (strip raw)) =
        some ["You don't have write permission to this directory."] by
          unfold checkDirWritable
          rw [if_pos hdir, if_neg (by simp [hwr])]]

theorem acquisition_validates_path_witness :
    fsAll.pathExists ["/tmp/music"] = true ∧ fsAll.isDir ["/tmp/music"] = true ∧
    fsAll.writable ["/tmp/music"] = true ∧
    ∃ raw ∈ ["/tmp/music"], strip raw ≠ "" ∧ ["/tmp/music"] = reSingle (strip raw) :=
  (acquisition_validates_path reSingle).1 fsAll ["/tmp/music"] ["/tmp/music"] fsAll
    [pathPrompt] [] (by rfl)

/-- C6: for a non-existent path, a confirmed creation with a successful
`mkdir` creates the directory and all its intermediate segments (every
prefix of the path exists and is a directory on the filesystem carried by
the result); a creation failure is reported with the exception text and the
loop re-prompts; a declined creation re-prompts on the unchanged filesystem,
creating nothing. -/
theorem creation_flow (re : String → PathV) (fs : FS) (raw c : String)
    (rest : List String) (h1 : strip raw ≠ "")
    (h2 : fs.pathExists (re (strip raw)) = false) :
    (confirmYes c = true → fs.mkdirErr (re (strip raw)) = none →
      ∀ q : PathV, q.isPrefixOf (re (strip raw)) = true →
        ((get_download_path re fs (raw :: c :: rest)).fsOf).pathExists q = true ∧
        ((get_download_path re fs (raw :: c :: rest)).fsOf).isDir q = true) ∧
    (∀ e, confirmYes c = true → fs.mkdirErr (re (strip raw)) = some e →
      get_download_path re fs (raw :: c :: rest) =
        AcqResult.prepend
          [pathPrompt, createPrompt (re (strip raw)),
           "Error creating directory: " ++ e]
          (get_download_path re fs rest)) ∧
    (confirmYes c = false →
      get_download_path re fs (raw :: c :: rest) =
        AcqResult.prepend [pathPrompt, createPrompt (re (strip raw))]
          (get_download_path re fs rest)) := by
  have hex : ¬fs.pathExists (re (strip raw)) = true := by simp [h2]
  refine ⟨?_, ?_, ?_⟩
  · intro hc hmk q hq
    rw [get_cons, if_neg h1, if_neg hex]
    dsimp only
    rw [if_pos hc, hmk]
    cases hchk : checkDirWritable (fs.mkdir (re (strip raw))) (re (strip raw)) with
    | none =>
      dsimp only
      constructor
      · simp [AcqResult.fsOf, FS.mkdir, hq]
      · simp [AcqResult.fsOf, FS.mkdir, hq]
    | some msgs =>
      dsimp only
      rw [fsOf_prepend]
      constructor
      · exact (get_fs_mono re (fs.mkdir (re (strip raw))) rest q).1
          (by simp [FS.mkdir, hq])
      · exact (get_fs_mono re (fs.mkdir (re (strip raw))) rest q).2
          (by simp [FS.mkdir, hq])
  · intro e hc hmk
    rw [get_cons, if_neg h1, if_neg hex]
    dsimp only
    rw [if_pos hc, hmk]
  · intro hc
    rw [get_cons, if_neg h1, if_neg hex]
    dsimp only
    rw [if_neg (by simp [hc])]

theorem creation_flow_witness :
    ((get_download_path reSingle fsW ["newdir", "y"]).fsOf).pathExists ["newdir"] = true ∧
    ((get_download_path reSingle fsW ["newdir", "y"]).fsOf).isDir ["newdir"] = true :=
  (creation_flow reSingle fsW "newdir" "y" [] (by decide) rfl).1 rfl rfl
    ["newdir"] (by decide)

/-- The loop reaches its terminal state only if some input line strips to
empty. -/
theorem mainLoop_some_mem (env : FetchEnv) (dp : String) :
    ∀ (inputs : List String) (count c : Nat) (out : List String),
      mainLoop env dp count inputs = some (c, out) →
      ∃ raw ∈ inputs, strip raw = "" := by
  intro inputs
  induction inputs with
  | nil => intro count c out h; simp [mainLoop] at h
  | cons raw rest ih =>
    intro count c out h
    cases hstep : mainStep env dp count raw with
    | ended =>
      exact ⟨raw, List.mem_cons_self _ _, (mainStep_ended_iff env dp count raw).mp hstep⟩
    | looped c' o =>
      rw [mainLoop, hstep] at h
      obtain ⟨r, hr, -⟩ := Option.map_eq_some'.mp h
      obtain ⟨raw', hmem, hs⟩ := ih c' r.1 r.2 hr
      exact ⟨raw', List.mem_cons_of_mem _ hmem, hs⟩

/-- When the loop ends, the printed output ends with the summary lines for
the final counter value. -/
theorem mainLoop_some_suffix (env : FetchEnv) (dp : String) :
    ∀ (inputs : List String) (count c : Nat) (out : List String),
      mainLoop env dp count inputs = some (c, out) →
      summaryLines c <:+ out := by
  intro inputs
  induction inputs with
  | nil => intro count c out h; simp [mainLoop] at h
  | cons raw rest ih =>
    intro count c out h
    cases hstep : mainStep env dp count raw with
    | ended =>
      rw [mainLoop, hstep] at h
      cases h
      exact ⟨[urlPrompt], rfl⟩
    | looped c' o =>
      rw [mainLoop, hstep] at h
      obtain ⟨r, hr, hmap⟩ := Option.map_eq_some'.mp h
      have := ih c' r.1 r.2 hr
      cases hmap
      exact this.trans (List.suffix_append _ _)

/-- A run of the program with the fetch library available exits with code 0
whenever it terminates. -/
theorem runProgram_exit_zero (re : String → PathV) (fs : FS) (ffmpegOk : Bool)
    (env : FetchEnv) (inputs : List String) (code : Nat) (out : List String)
    (h : runProgram true re fs ffmpegOk env inputs = some (code, out)) :
    code = 0 := by
  unfold runProgram at h
  rw [if_pos rfl] at h
  split at h
  · cases h
  · split at h
    · cases h
    · cases h
      rfl

/-- C4: empty (stripped) input at the URL prompt is the only in-loop way to
reach the terminal state — whenever the loop terminates, some input line
stripped to empty; on termination the output ends with the summary lines
reporting the total attempt count; and every terminating run of the program
with the fetch library available exits with code 0, so no runtime failure
during the loop produces a non-zero exit. -/
theorem session_end_behavior :
    (∀ (env : FetchEnv) (dp : String) (count : Nat) (inputs : List String)
        (c : Nat) (out : List String),
      mainLoop env dp count inputs = some (c, out) →
      ∃ raw ∈ inputs, strip raw = "") ∧
    (∀ (env : FetchEnv) (dp : String) (count : Nat) (inputs : List String)
        (c : Nat) (out : List String),
      mainLoop env dp count inputs = some (c, out) →
      summaryLines c <:+ out) ∧
    (∀ (re : String → PathV) (fs : FS) (ffmpegOk : Bool) (env : FetchEnv)
        (inputs : List String) (code : Nat) (out : List String),
      runProgram true re fs ffmpegOk env inputs = some (code, out) → code = 0) :=
  ⟨fun env dp count inputs c out h => mainLoop_some_mem env dp inputs count c out h,
   fun env dp count inputs c out h => mainLoop_some_suffix env dp inputs count c out h,
   fun re fs ffmpegOk env inputs code out h =>
     runProgram_exit_zero re fs ffmpegOk env inputs code out h⟩

theorem session_end_behavior_witness :
    (∃ raw ∈ ([""] : List String), strip raw = "") ∧
    summaryLines 0 <:+ urlPrompt :: summaryLines 0 ∧
    (0 : Nat) = 0 :=
  ⟨session_end_behavior.1 envOk "/music" 0 [""] 0 (urlPrompt :: summaryLines 0) rfl,
   session_end_behavior.2.1 envOk "/music" 0 [""] 0 (urlPrompt :: summaryLines 0) rfl,
   session_end_behavior.2.2 reSingle fsAll true envOk ["/music", ""] 0 _ rfl⟩
